import Mathlib

/-!
A shallow embedding of the construction-target subsystem of
src/titerra/projects/prism/variables/construction_targets.py.

The embedding translates, line by line, the data model and operations of
BaseConstructTarget (vertex indexing, bounds checking, block insertion and
removal, the two virtual-shell passes) and the concrete generators
Beam1Prism, MixedBeamPrism and Ramp.  Python integers are Lean Int;
Python dictionaries keyed by strings are Option-valued lookup functions;
code that can raise (assert, KeyError, TypeError, NotImplementedError,
networkx remove of a missing node) returns Except PyError.

Two pieces of this repository are imported by the source file but are not
under src/: the Orientation class (titerra.projects.prism.variables.orientation)
and the gmt_spec attribute/catalog module.  Those are modelled from the
spec; their definitions below carry a doc comment starting with
"Modelled from the spec:".  Everything else is translated from the source.
-/

namespace Prism

/-- Exceptions the translated Python code can raise. -/
inductive PyError where
  | preconditionViolation
  | keyError
  | typeError
  | attributeError
  | nameError
  | notImplementedError
  | networkxError
deriving DecidableEq, Repr

/-- sierra.core.vector.Vector3D: an integer lattice coordinate. -/
structure Vector3D where
  x : Int
  y : Int
  z : Int
deriving DecidableEq, Repr

/-- Component-wise addition (Vector3D.__add__). -/
def Vector3D.add (a b : Vector3D) : Vector3D := ⟨a.x + b.x, a.y + b.y, a.z + b.z⟩

/-- Scalar multiplication (Vector3D.__mul__), used for extent-scaled offsets. -/
def Vector3D.smul (a : Vector3D) (k : Int) : Vector3D := ⟨a.x * k, a.y * k, a.z * k⟩

def xplus1 : Vector3D := ⟨1, 0, 0⟩

def xminus1 : Vector3D := ⟨-1, 0, 0⟩

def yplus1 : Vector3D := ⟨0, 1, 0⟩

def yminus1 : Vector3D := ⟨0, -1, 0⟩

def zplus1 : Vector3D := ⟨0, 0, 1⟩

def zminus1 : Vector3D := ⟨0, 0, -1⟩

/-- sierra.core.utils.ArenaExtent as used by BaseConstructTarget.__init__:
an origin (the spec anchor) and dims (the spec bounding box). -/
structure ArenaExtent where
  origin : Vector3D
  dims : Vector3D
deriving DecidableEq, Repr

def ArenaExtent.xsize (e : ArenaExtent) : Int := e.dims.x

def ArenaExtent.ysize (e : ArenaExtent) : Int := e.dims.y

def ArenaExtent.zsize (e : ArenaExtent) : Int := e.dims.z

/-- Modelled from the spec: the Orientation class
(titerra.projects.prism.variables.orientation, not under src/) is an enum
over the four cardinal directions E, W, N, S, equivalently the angles
0, PI, PI/2, 3PI/2. -/
inductive Orientation where
  | E | W | N | S
deriving DecidableEq, Repr

/-- Modelled from the spec: the value Orientation("0"), the direction at
angle 0, which the spec identifies with E. -/
def orientation0 : Orientation := Orientation.E

/-- Modelled from the spec: str() of an Orientation renders its angle; the
sibling source variant under src/projects/silicon stores orientations as
exactly these strings. -/
def Orientation.toStr : Orientation → String
  | .E => "0"
  | .N => "PI/2"
  | .W => "PI"
  | .S => "3PI/2"

/-- Modelled from the spec: axis-alignment predicate is_EW(). -/
def Orientation.is_EW : Orientation → Bool
  | .E | .W => true
  | _ => false

/-- Modelled from the spec: axis-alignment predicate is_NS(); exactly one of
is_EW / is_NS holds. -/
def Orientation.is_NS : Orientation → Bool
  | .N | .S => true
  | _ => false

/-- The z_rot argument of graph_block_add is duck-typed in Python: every
call site passes an Orientation except Ramp._gen_beam1_blocks, which
passes the integer 1 (construction_targets.py line 532). -/
inductive ZRot where
  | rot (o : Orientation)
  | intval (n : Int)
deriving DecidableEq, Repr

/-- str(z_rot) as used when building node attributes. -/
def ZRot.str : ZRot → String
  | .rot o => o.toStr
  | .intval n => toString n

/-- The four string-valued attributes every node carries
(gmt_spec.kBlockTypeKey, kVertexAnchorKey, kVertexZRotKey, kVertexColorKey). -/
structure NodeAttrs where
  btype : String
  anchor : String
  zrot : String
  color : String
deriving DecidableEq, Repr

/-- The "x,y,z" anchor attribute string built by the format calls. -/
def anchorString (c : Vector3D) : String :=
  toString c.x ++ "," ++ toString c.y ++ "," ++ toString c.z

/-- Modelled from the spec: the block catalog (gmt_spec, not under src/)
holds exactly the kinds cube(=beam1), beam2, beam3, ramp, ramp2 and
virtual-beam1, under the key strings this source file uses. -/
def inCatalog (bt : String) : Bool :=
  bt == "beam1" || bt == "beam2" || bt == "beam3" ||
  bt == "ramp" || bt == "ramp2" || bt == "vbeam1"

/-- Modelled from the spec: gmt_spec.kBlockTypes maps each catalog kind to
its block-type code.  The code values are not in src/; they are modelled as
the kind tag itself, which keeps them distinct per kind (all the claims
need).  A key outside the catalog raises KeyError (none here). -/
def kBlockTypes (bt : String) : Option String :=
  if inCatalog bt then some bt else none

/-- Modelled from the spec: gmt_spec.kBlockColors maps each catalog kind to
its display color tag; the tag values are modelled as the kind tag itself. -/
def kBlockColors (bt : String) : Option String :=
  if inCatalog bt then some bt else none

/-- The extents dict local to graph_block_add (construction_targets.py
lines 209-214): footprint length along the major axis, defined only for
vbeam1, beam1, beam2 and beam3. -/
def blockExtents (bt : String) : Option Nat :=
  if bt == "vbeam1" then some 1
  else if bt == "beam1" then some 1
  else if bt == "beam2" then some 2
  else if bt == "beam3" then some 3
  else none

/-- The networkx graph: a node list keyed by vertex descriptor, each node
carrying its attribute record, and an edge list of unordered endpoint
pairs with an integer weight. -/
structure Graph where
  nodes : List (Int × NodeAttrs)
  edges : List (Int × Int × Nat)
deriving DecidableEq, Repr

def emptyGraph : Graph := ⟨[], []⟩

/-- Lookup of a node's attributes by descriptor key. -/
def nodeFindL : List (Int × NodeAttrs) → Int → Option NodeAttrs
  | [], _ => none
  | p :: rest, k => if p.1 == k then some p.2 else nodeFindL rest k

/-- graph.has_node(vd), also "vd in graph". -/
def Graph.hasNode (g : Graph) (k : Int) : Bool := (nodeFindL g.nodes k).isSome

/-- Whether a stored edge equals the unordered endpoint pair (u, v). -/
def edgeMatches (u v : Int) (e : Int × Int × Nat) : Bool :=
  (e.1 == u && e.2.1 == v) || (e.1 == v && e.2.1 == u)

def edgeWeightL : List (Int × Int × Nat) → Int → Int → Option Nat
  | [], _, _ => none
  | e :: rest, u, v => if edgeMatches u v e then some e.2.2 else edgeWeightL rest u v

/-- The weight attribute of the edge between u and v, when present. -/
def Graph.edgeWeight (g : Graph) (u v : Int) : Option Nat := edgeWeightL g.edges u v

def Graph.hasEdge (g : Graph) (u v : Int) : Bool := (g.edgeWeight u v).isSome

/-- graph.add_node(k, attrs).  Every add_node call in the source is guarded
(by the assert at line 222, the has_node check at line 248, or the shell
passes' membership checks), so the key is always fresh and a plain append
is the networkx behaviour at every call site. -/
def Graph.addNode (g : Graph) (k : Int) (a : NodeAttrs) : Graph :=
  { g with nodes := g.nodes ++ [(k, a)] }

/-- graph.add_edge(u, v, weight=w): an unordered edge; re-adding an
existing pair overwrites its weight (networkx updates the attribute),
modelled by dropping any stored entry for the pair and appending the new
one.  Both endpoints are already nodes at every call site (the anchor is
added at line 223, the extent neighbor ensured at lines 248-260, and the
weight-1 loop checks membership at line 274), so no implicit node creation
is needed. -/
def Graph.addEdge (g : Graph) (u v : Int) (w : Nat) : Graph :=
  { g with edges := g.edges.filter (fun e => !edgeMatches u v e) ++ [(u, v, w)] }

/-- graph.remove_node(k): drops the node and every incident edge; networkx
raises NetworkXError when the node does not exist. -/
def Graph.removeNode (g : Graph) (k : Int) : Except PyError Graph :=
  if g.hasNode k then
    Except.ok ⟨g.nodes.filter (fun p => !(p.1 == k)),
               g.edges.filter (fun e => !(e.1 == k || e.2.1 == k))⟩
  else Except.error PyError.networkxError

/-- BaseConstructTarget.calc_vertex_descriptor (lines 109-117):
n.z * xsize * ysize + n.y * ysize + n.x, verbatim. -/
def calc_vertex_descriptor (ext : ArenaExtent) (n : Vector3D) : Int :=
  n.z * ext.xsize * ext.ysize + n.y * ext.ysize + n.x

/-- BaseConstructTarget.coord_within_bb (lines 119-127). -/
def coord_within_bb (ext : ArenaExtent) (c : Vector3D) : Bool :=
  if c.x < 0 || c.y < 0 || c.z < 0 then false
  else if c.x ≥ ext.dims.x || c.y ≥ ext.dims.y || c.z ≥ ext.dims.z then false
  else true

/-- BaseConstructTarget.calc_vertex_coord (lines 129-135).  Python's
int(a / b) truncates toward zero, Int.tdiv; Python's a % b with the
positive divisors arising here (extent dimensions) agrees with Int.emod. -/
def calc_vertex_coord (ext : ArenaExtent) (vd : Int) : Vector3D :=
  let z := vd.tdiv (ext.xsize * ext.ysize)
  let vd2 := vd - z * (ext.xsize * ext.ysize)
  let y := vd2.tdiv ext.xsize
  let x := vd2.emod ext.xsize
  ⟨x, y, z⟩

/-- The extent-neighbor coordinate for a block of the given footprint
length: the per-orientation branches of lines 233-244
(c + yplus1*len for N, c + yminus1*len for S, and so on). -/
def extent_anchor_neighbor (c : Vector3D) (len : Nat) : Orientation → Vector3D
  | .N => c.add (yplus1.smul (len : Int))
  | .S => c.add (yminus1.smul (len : Int))
  | .E => c.add (xplus1.smul (len : Int))
  | .W => c.add (xminus1.smul (len : Int))

/-- The origin_anchor_neighbors lists of lines 233-244 for blocks of
length greater than one: per orientation, four of the six Manhattan
directions (zplus1 is absent from every list in the source). -/
def originAnchorNeighbors : Orientation → List Vector3D
  | .N => [zminus1, xplus1, xminus1, yminus1]
  | .S => [zminus1, xplus1, xminus1, yplus1]
  | .E => [zminus1, yplus1, yminus1, xminus1]
  | .W => [zminus1, yplus1, yminus1, xplus1]

/-- The origin_anchor_neighbors list of lines 265-266 for length-1 blocks:
all six Manhattan directions. -/
def beam1Neighbors : List Vector3D :=
  [yplus1, xplus1, yminus1, xminus1, zminus1, zplus1]

/-- The weight-1 neighbor loop of lines 269-283: for each direction, skip
the neighbor if it is out of the bounding box or not yet a node, otherwise
add the edge (anchor, neighbor) with weight 1. -/
def addNeighborEdges (ext : ArenaExtent) : Graph → Int → Vector3D → List Vector3D → Graph
  | g, _, _, [] => g
  | g, vd, c, n :: rest =>
    let g2 :=
      if !(coord_within_bb ext (c.add n)) then g
      else if !(g.hasNode (calc_vertex_descriptor ext (c.add n))) then g
      else g.addEdge vd (calc_vertex_descriptor ext (c.add n)) 1
    addNeighborEdges ext g2 vd c rest

/-- BaseConstructTarget.graph_block_add (lines 200-283).  Execution order
follows the source: the attrs dict is built first (its gmt_spec lookups can
raise KeyError for a kind outside the catalog), then the assert at line 222
(a PreconditionViolation when the descriptor already holds a node), then
the node insertion, then the first lookup of the local extents dict at
line 232 (KeyError for the catalog kinds ramp/ramp2, which the dict lacks).
For a length above one the code dispatches on z_rot's orientation
predicates (an AttributeError if z_rot is the integer the ramp generator
passes, though that generator only passes it with beam1), synthesizes a
vbeam1 placeholder at the extent neighbor when that descriptor is free
(note line 254: the placeholder's z-rotation attribute is str(z_rot), not
the default "0"), adds the long edge weighted by the footprint length, and
finally runs the weight-1 neighbor loop over four directions; for length
one the loop runs over all six directions. -/
def graph_block_add (ext : ArenaExtent) (g : Graph) (block_type : String)
    (c : Vector3D) (z_rot : ZRot) : Except PyError Graph :=
  let vd := calc_vertex_descriptor ext c
  match kBlockTypes block_type, kBlockColors block_type with
  | some tcode, some color =>
    let attrs : NodeAttrs := ⟨tcode, anchorString c, z_rot.str, color⟩
    if g.hasNode vd then Except.error PyError.preconditionViolation
    else
      let g1 := g.addNode vd attrs
      match blockExtents block_type with
      | none => Except.error PyError.keyError
      | some len =>
        if 1 < len then
          match z_rot with
          | ZRot.intval _ => Except.error PyError.attributeError
          | ZRot.rot o =>
            let extNb := extent_anchor_neighbor c len o
            let extVd := calc_vertex_descriptor ext extNb
            let g2 :=
              if g1.hasNode extVd then g1
              else g1.addNode extVd ⟨"vbeam1", anchorString extNb, z_rot.str, "vbeam1"⟩
            let g3 := g2.addEdge vd extVd len
            Except.ok (addNeighborEdges ext g3 vd c (originAnchorNeighbors o))
        else
          Except.ok (addNeighborEdges ext g1 vd c beam1Neighbors)
  | _, _ => Except.error PyError.keyError

/-- BaseConstructTarget.graph_block_remove (lines 191-198). -/
def graph_block_remove (ext : ArenaExtent) (g : Graph) (c : Vector3D) : Except PyError Graph :=
  g.removeNode (calc_vertex_descriptor ext c)

/-- Python range(0, n) over the Int sizes used by the generators: empty
when n is not positive. -/
def intRange (n : Int) : List Int := (List.range n.toNat).map (fun k => (k : Int))

/-- Sequencing of a loop body that mutates the graph and can raise. -/
def runSteps {α : Type} (step : Graph → α → Except PyError Graph) :
    Graph → List α → Except PyError Graph
  | g, [] => Except.ok g
  | g, x :: rest =>
    match step g x with
    | Except.error e => Except.error e
    | Except.ok g2 => runSteps step g2 rest

/-- The i, j, k triple loop of graph_complement_shell_add (lines 173-175),
x outermost, z innermost. -/
def complementCoords (ext : ArenaExtent) : List Vector3D :=
  (intRange ext.xsize).flatMap (fun i =>
    (intRange ext.ysize).flatMap (fun j =>
      (intRange ext.zsize).map (fun k => Vector3D.mk i j k)))

/-- BaseConstructTarget.graph_complement_shell_add (lines 164-189): for
every coordinate of the triple loop whose descriptor is not yet a node,
insert a vbeam1 block there with Orientation("0").  The attrs dict the
loop also builds (lines 178-185) is never used and is omitted. -/
def graph_complement_shell_add (ext : ArenaExtent) (g : Graph) : Except PyError Graph :=
  runSteps
    (fun g2 c =>
      if !(g2.hasNode (calc_vertex_descriptor ext c)) then
        graph_block_add ext g2 "vbeam1" c (ZRot.rot orientation0)
      else Except.ok g2)
    g (complementCoords ext)

/-- The neighbors list of lines 139-145, in source order. -/
def sixNeighbors : List Vector3D :=
  [xplus1, xminus1, yplus1, yminus1, zplus1, zminus1]

/-- BaseConstructTarget.graph_virtual_shell_add (lines 137-162): iterate
over a snapshot of the node keys (graph.copy()), and for each of the six
axis neighbors of each node's coordinate, insert a vbeam1 block with
Orientation("0") when the neighbor descriptor is not yet a node and the
coordinate is in bounds.  The unused attrs dict of lines 150-157 is
omitted. -/
def graph_virtual_shell_add (ext : ArenaExtent) (g : Graph) : Except PyError Graph :=
  runSteps
    (fun gcur vd =>
      let c := calc_vertex_coord ext vd
      runSteps
        (fun g3 n =>
          if !(g3.hasNode (calc_vertex_descriptor ext (c.add n)))
              && coord_within_bb ext (c.add n) then
            graph_block_add ext g3 "vbeam1" (c.add n) (ZRot.rot orientation0)
          else Except.ok g3)
        gcur sixNeighbors)
    g (g.nodes.map (fun p => p.1))

/-- Beam1Prism.gen_graph (lines 356-377): a dense fill of the bounding box
with beam1 blocks; the loop nest is x-outer for an east-west orientation
and y-outer for north-south (the only two cases, since every Orientation
is one or the other). -/
def beam1Prism_gen_graph (ext : ArenaExtent) (orient : Orientation) : Except PyError Graph :=
  if orient.is_EW then
    runSteps (fun g c => graph_block_add ext g "beam1" c (ZRot.rot orient)) emptyGraph
      ((intRange ext.xsize).flatMap (fun x =>
        (intRange ext.ysize).flatMap (fun y =>
          (intRange ext.zsize).map (fun z => Vector3D.mk x y z))))
  else
    runSteps (fun g c => graph_block_add ext g "beam1" c (ZRot.rot orient)) emptyGraph
      ((intRange ext.ysize).flatMap (fun y =>
        (intRange ext.xsize).flatMap (fun x =>
          (intRange ext.zsize).map (fun z => Vector3D.mk x y z))))

/-- MixedBeamPrism.gen_graph (lines 397-400): unconditionally raises
NotImplementedError ("Cannot generate mixed graph--manual specification
required") before touching any graph. -/
def mixedBeamPrism_gen_graph (ext : ArenaExtent) (orient : Orientation) :
    Except PyError Graph :=
  Except.error PyError.notImplementedError

/-- Ramp.kRAMP_LENGTH_RATIO (line 451). -/
def rampLengthK : Int := 2

/-- Ramp._structure_sanity_checks (lines 468-476): the bounding-box size
along the orientation's major axis must be divisible by the ramp length
ratio, asserted before any graph exists.  The else branch is the is_NS
case, the complement of is_EW. -/
def ramp_structure_sanity_checks (ext : ArenaExtent) (orient : Orientation) :
    Except PyError Unit :=
  if orient.is_EW then
    if ext.xsize.emod rampLengthK == 0 then Except.ok ()
    else Except.error PyError.preconditionViolation
  else
    if ext.ysize.emod rampLengthK == 0 then Except.ok ()
    else Except.error PyError.preconditionViolation

/-- Ramp.__init__ (lines 460-466): stores the spec-derived extent and runs
the sanity checks; no graph is built or touched here (gen_graph is a
separate, later call). -/
def ramp_new (ext : ArenaExtent) (orient : Orientation) : Except PyError ArenaExtent :=
  match ramp_structure_sanity_checks ext orient with
  | Except.error e => Except.error e
  | Except.ok _ => Except.ok ext

/-- Ramp._gen_beam1_blocks (lines 516-543): corr starts at 1 and is
incremented after each z layer, so at layer z the fill along the major
axis runs over range(0, size - ratio * (z + 1)).  Every call passes the
integer 1 where graph_block_add expects z_rot (line 532). -/
def ramp_gen_beam1_blocks (ext : ArenaExtent) (orient : Orientation) (g : Graph) :
    Except PyError Graph :=
  if orient.is_EW then
    runSteps (fun g2 c => graph_block_add ext g2 "beam1" c (ZRot.intval 1)) g
      ((intRange ext.zsize).flatMap (fun z =>
        (intRange (ext.xsize - rampLengthK * (z + 1))).flatMap (fun x =>
          (intRange ext.ysize).map (fun y => Vector3D.mk x y z))))
  else
    runSteps (fun g2 c => graph_block_add ext g2 "beam1" c (ZRot.intval 1)) g
      ((intRange ext.zsize).flatMap (fun z =>
        (intRange (ext.ysize - rampLengthK * (z + 1))).flatMap (fun y =>
          (intRange ext.xsize).map (fun x => Vector3D.mk x y z))))

/-- Ramp._gen_ramp_blocks (lines 489-514).  In the east-west branch every
iteration of the y loop executes
self.graph_block_add(graph, 'ramp', Vector3D(x, y, z)) with the required
z_rot parameter omitted, so Python raises TypeError at the first executed
call (and had the call been well formed, 'ramp' has no entry in the local
extents dict, a KeyError).  In the north-south branch the first z
iteration reads corr before any assignment, a NameError.  Either branch
returns normally only when its loop body never runs. -/
def ramp_gen_ramp_blocks (ext : ArenaExtent) (orient : Orientation) (g : Graph) :
    Except PyError Graph :=
  if orient.is_EW then
    runSteps (fun _ _ => Except.error PyError.typeError) g
      ((intRange ext.zsize).flatMap (fun z =>
        (intRange ext.ysize).map (fun y => (z, y))))
  else
    runSteps (fun _ _ => Except.error PyError.nameError) g (intRange ext.zsize)

/-- Ramp.gen_graph (lines 478-487): beam1 blocks first, ramp blocks second. -/
def ramp_gen_graph (ext : ArenaExtent) (orient : Orientation) : Except PyError Graph :=
  match ramp_gen_beam1_blocks ext orient emptyGraph with
  | Except.error e => Except.error e
  | Except.ok g => ramp_gen_ramp_blocks ext orient g

/-- The z-rotation attribute of the node stored at a descriptor. -/
def Graph.nodeZrot (g : Graph) (k : Int) : Option String :=
  (nodeFindL g.nodes k).map NodeAttrs.zrot

/-- The anchor attribute of the node stored at a descriptor. -/
def Graph.nodeAnchor (g : Graph) (k : Int) : Option String :=
  (nodeFindL g.nodes k).map NodeAttrs.anchor

/-- The attributes of the node at a descriptor in the graph an insertion
returned, none when the insertion raised. -/
def addResultAttrs (r : Except PyError Graph) (k : Int) : Option NodeAttrs :=
  match r with
  | Except.ok g => nodeFindL g.nodes k
  | Except.error _ => none

/-- Graph well-formedness: every edge endpoint is a node key (invariant (b)
of the spec's ConstructionGraph, maintained by construction). -/
def Graph.wfB (g : Graph) : Bool :=
  g.edges.all (fun e => g.hasNode e.1 && g.hasNode e.2.1)

def ext421 : ArenaExtent := ⟨⟨0, 0, 0⟩, ⟨4, 2, 1⟩⟩

def ext221 : ArenaExtent := ⟨⟨0, 0, 0⟩, ⟨2, 2, 1⟩⟩

def ext332 : ArenaExtent := ⟨⟨0, 0, 0⟩, ⟨3, 3, 2⟩⟩

def ext331 : ArenaExtent := ⟨⟨0, 0, 0⟩, ⟨3, 3, 1⟩⟩

/-! Helper lemmas about the list-level graph operations. -/

theorem nodeFindL_append_none {l1 l2 : List (Int × NodeAttrs)} {k : Int}
    (h : nodeFindL l1 k = none) : nodeFindL (l1 ++ l2) k = nodeFindL l2 k := by
  induction l1 with
  | nil => rfl
  | cons p rest ih =>
    simp only [nodeFindL] at h
    by_cases hp : (p.1 == k) = true
    · simp [hp] at h
    · have hp2 : (p.1 == k) = false := by simpa using hp
      simp only [hp2] at h
      simp only [Bool.false_eq_true, if_false] at h
      simp only [List.cons_append, nodeFindL, hp2, Bool.false_eq_true, if_false]
      exact ih h

theorem nodeFindL_append_some {l1 l2 : List (Int × NodeAttrs)} {k : Int} {a : NodeAttrs}
    (h : nodeFindL l1 k = some a) : nodeFindL (l1 ++ l2) k = some a := by
  induction l1 with
  | nil => simp [nodeFindL] at h
  | cons p rest ih =>
    simp only [nodeFindL] at h
    by_cases hp : (p.1 == k) = true
    · simp only [hp, if_true] at h
      simp only [List.cons_append, nodeFindL, hp, if_true]
      exact h
    · have hp2 : (p.1 == k) = false := by simpa using hp
      simp only [hp2, Bool.false_eq_true, if_false] at h
      simp only [List.cons_append, nodeFindL, hp2, Bool.false_eq_true, if_false]
      exact ih h

theorem nodeFindL_none_forall {l : List (Int × NodeAttrs)} {k : Int}
    (h : nodeFindL l k = none) : ∀ p ∈ l, (p.1 == k) = false := by
  induction l with
  | nil => intro p hp; simp at hp
  | cons p rest ih =>
    intro q hq
    by_cases hp : (p.1 == k) = true
    · simp [nodeFindL, hp] at h
    · have hp2 : (p.1 == k) = false := by simpa using hp
      simp only [nodeFindL, hp2, Bool.false_eq_true, if_false] at h
      rcases List.mem_cons.mp hq with rfl | hq2
      · exact hp2
      · exact ih h q hq2

theorem addEdge_nodes (g : Graph) (u v : Int) (w : Nat) :
    (g.addEdge u v w).nodes = g.nodes := rfl

theorem addEdge_hasNode (g : Graph) (u v : Int) (w : Nat) (k : Int) :
    (g.addEdge u v w).hasNode k = g.hasNode k := rfl

theorem addNeighborEdges_nodes (ext : ArenaExtent) (dirs : List Vector3D) :
    ∀ (g : Graph) (vd : Int) (c : Vector3D),
      (addNeighborEdges ext g vd c dirs).nodes = g.nodes := by
  induction dirs with
  | nil => intro g vd c; rfl
  | cons n rest ih =>
    intro g vd c
    show (addNeighborEdges ext _ vd c rest).nodes = g.nodes
    split
    · exact ih g vd c
    · split
      · exact ih g vd c
      · exact ih _ vd c

theorem edgeMatches_of_both {a b u v e1 e2 : Int} {w e3 : Nat}
    (h1 : edgeMatches u v (e1, e2, e3) = true)
    (h2 : edgeMatches a b (e1, e2, e3) = true) :
    edgeMatches a b (u, v, w) = true := by
  simp only [edgeMatches, Bool.or_eq_true, Bool.and_eq_true, beq_iff_eq] at h1 h2 ⊢
  rcases h1 with ⟨g1, g2⟩ | ⟨g1, g2⟩ <;> rcases h2 with ⟨g3, g4⟩ | ⟨g3, g4⟩ <;>
    subst g1 <;> subst g2 <;> tauto

theorem edgeMatches_trans {a b u v p q : Int} {w w2 : Nat}
    (hab : edgeMatches a b (u, v, w) = true) (he : edgeMatches a b (p, q, w2) = true) :
    edgeMatches u v (p, q, w2) = true := by
  simp only [edgeMatches, Bool.or_eq_true, Bool.and_eq_true, beq_iff_eq] at hab he ⊢
  rcases hab with ⟨g1, g2⟩ | ⟨g1, g2⟩ <;> rcases he with ⟨g3, g4⟩ | ⟨g3, g4⟩ <;>
    subst g3 <;> subst g4 <;> tauto

theorem edgeWeightL_filter_set {es : List (Int × Int × Nat)} {a b u v : Int} {w : Nat}
    (hab : edgeMatches a b (u, v, w) = true) :
    edgeWeightL (es.filter (fun e => !edgeMatches u v e) ++ [(u, v, w)]) a b = some w := by
  induction es with
  | nil => simp [edgeWeightL, hab]
  | cons e rest ih =>
    by_cases hm : edgeMatches u v e = true
    · simp only [List.filter_cons, hm, Bool.not_true, Bool.false_eq_true, if_false]
      exact ih
    · have hm2 : edgeMatches u v e = false := by simpa using hm
      have hne : edgeMatches a b e = false := by
        by_cases h2 : edgeMatches a b e = true
        · obtain ⟨e1, e2, e3⟩ := e
          exact absurd (edgeMatches_trans hab h2) (by simp [hm2])
        · simpa using h2
      simp only [List.filter_cons, hm2, Bool.not_false, if_true, List.cons_append]
      simp only [edgeWeightL, hne, Bool.false_eq_true, if_false]
      exact ih

theorem edgeWeightL_filter_keep {es : List (Int × Int × Nat)} {a b u v : Int} {w : Nat}
    (hab : edgeMatches a b (u, v, w) = false) :
    edgeWeightL (es.filter (fun e => !edgeMatches u v e) ++ [(u, v, w)]) a b =
      edgeWeightL es a b := by
  induction es with
  | nil => simp [edgeWeightL, hab]
  | cons e rest ih =>
    by_cases hm : edgeMatches u v e = true
    · have hne : edgeMatches a b e = false := by
        by_cases h2 : edgeMatches a b e = true
        · obtain ⟨e1, e2, e3⟩ := e
          exact absurd (@edgeMatches_of_both a b u v e1 e2 w e3 hm h2) (by simp [hab])
        · simpa using h2
      simp only [List.filter_cons, hm, Bool.not_true, Bool.false_eq_true, if_false]
      simp only [edgeWeightL, hne, Bool.false_eq_true, if_false]
      exact ih
    · have hm2 : edgeMatches u v e = false := by simpa using hm
      simp only [List.filter_cons, hm2, Bool.not_false, if_true, List.cons_append]
      by_cases h2 : edgeMatches a b e = true
      · simp only [edgeWeightL, h2, if_true]
      · have h3 : edgeMatches a b e = false := by simpa using h2
        simp only [edgeWeightL, h3, Bool.false_eq_true, if_false]
        exact ih

theorem edgeWeight_addEdge_same {g : Graph} {a b u v : Int} {w : Nat}
    (hab : edgeMatches a b (u, v, w) = true) :
    (g.addEdge u v w).edgeWeight a b = some w :=
  edgeWeightL_filter_set hab

theorem edgeWeight_addEdge_other {g : Graph} {a b u v : Int} {w : Nat}
    (hab : edgeMatches a b (u, v, w) = false) :
    (g.addEdge u v w).edgeWeight a b = g.edgeWeight a b :=
  edgeWeightL_filter_keep hab

theorem addNeighborEdges_preserve_w1 (ext : ArenaExtent) (dirs : List Vector3D) :
    ∀ (g : Graph) (vd : Int) (c : Vector3D) (a b : Int),
      g.edgeWeight a b = some 1 →
      (addNeighborEdges ext g vd c dirs).edgeWeight a b = some 1 := by
  induction dirs with
  | nil => intro g vd c a b h; exact h
  | cons n rest ih =>
    intro g vd c a b h
    show (addNeighborEdges ext _ vd c rest).edgeWeight a b = some 1
    split
    · exact ih g vd c a b h
    · split
      · exact ih g vd c a b h
      · apply ih
        by_cases hm : edgeMatches a b (vd, calc_vertex_descriptor ext (c.add n), 1) = true
        · exact edgeWeight_addEdge_same hm
        · rw [edgeWeight_addEdge_other (by simpa using hm)]
          exact h

theorem addNeighborEdges_adds (ext : ArenaExtent) (dirs : List Vector3D) :
    ∀ (g : Graph) (vd : Int) (c : Vector3D) (d : Vector3D),
      d ∈ dirs →
      coord_within_bb ext (c.add d) = true →
      g.hasNode (calc_vertex_descriptor ext (c.add d)) = true →
      (addNeighborEdges ext g vd c dirs).edgeWeight vd
        (calc_vertex_descriptor ext (c.add d)) = some 1 := by
  induction dirs with
  | nil => intro g vd c d hd; simp at hd
  | cons n rest ih =>
    intro g vd c d hd hbb hn
    rcases List.mem_cons.mp hd with heq | htail
    · subst heq
      show (addNeighborEdges ext
        (if !(coord_within_bb ext (c.add d)) then g
         else if !(g.hasNode (calc_vertex_descriptor ext (c.add d))) then g
         else g.addEdge vd (calc_vertex_descriptor ext (c.add d)) 1)
        vd c rest).edgeWeight vd (calc_vertex_descriptor ext (c.add d)) = some 1
      rw [hbb, hn]
      simp only [Bool.not_true, Bool.false_eq_true, if_false]
      apply addNeighborEdges_preserve_w1
      exact edgeWeight_addEdge_same (by simp [edgeMatches])
    · show (addNeighborEdges ext _ vd c rest).edgeWeight vd
        (calc_vertex_descriptor ext (c.add d)) = some 1
      split
      · exact ih g vd c d htail hbb hn
      · split
        · exact ih g vd c d htail hbb hn
        · exact ih _ vd c d htail hbb (by rw [addEdge_hasNode]; exact hn)

/-! Claim theorems. -/

/-- C1: the claim states calc_vertex_descriptor and calc_vertex_coord are
exact inverses on every in-bounds coordinate of every positive extent.
The code violates this: with dims (4,2,1) the descriptor formula (whose
y stride is ysize where the inverse uses xsize) sends both the in-bounds
coordinates (0,1,0) and (2,0,0) to descriptor 2, and the round trip on
(0,1,0) returns (2,0,0).  This also contradicts the function's own
docstring, which promises a unique index per coordinate. -/
theorem C1_index_roundtrip_defect :
    coord_within_bb ext421 ⟨0, 1, 0⟩ = true ∧
    coord_within_bb ext421 ⟨2, 0, 0⟩ = true ∧
    calc_vertex_descriptor ext421 ⟨0, 1, 0⟩ = 2 ∧
    calc_vertex_descriptor ext421 ⟨2, 0, 0⟩ = 2 ∧
    calc_vertex_coord ext421 (calc_vertex_descriptor ext421 ⟨0, 1, 0⟩) = ⟨2, 0, 0⟩ ∧
    (⟨2, 0, 0⟩ : Vector3D) ≠ ⟨0, 1, 0⟩ := by
  refine ⟨rfl, rfl, rfl, rfl, rfl, ?_⟩
  decide

/-- C2: the claim requires an east-west Ramp over bounding box (4,2,1) to
produce one length-2 ramp block plus two beam1 blocks per row.  The code
cannot: Ramp's sanity checks accept this spec (first conjunct), but
gen_graph raises a TypeError at the first ramp cell, because the source
calls graph_block_add(graph, 'ramp', Vector3D(x, y, z)) without the
required z_rot argument (and 'ramp' also has no entry in the local extents
dict), so no graph is ever returned. -/
theorem C2_ramp_ew_generation_crashes :
    ramp_new ext421 Orientation.E = Except.ok ext421 ∧
    ramp_gen_graph ext421 Orientation.E = Except.error PyError.typeError :=
  ⟨rfl, rfl⟩

/-- C5: the claim states that after graph_complement_shell_add every
in-bounds coordinate holds a node anchored at it, so exactly
xsize*ysize*zsize nodes.  On the empty graph over dims (4,2,1) the pass
inserts only 6 nodes, not 4*2*1 = 8, because the defective descriptor
formula aliases (2,0,0) with (0,1,0) (and (3,0,0) with (1,1,0)): the
in-bounds coordinate (2,0,0) ends up with no node anchored at it — its
descriptor holds the node anchored at "0,1,0". -/
theorem C5_complement_shell_defect :
    (graph_complement_shell_add ext421 emptyGraph).map (fun g => g.nodes.length) =
      Except.ok 6 ∧
    ext421.xsize * ext421.ysize * ext421.zsize = 8 ∧
    (graph_complement_shell_add ext421 emptyGraph).map
        (fun g => g.nodeAnchor (calc_vertex_descriptor ext421 ⟨2, 0, 0⟩)) =
      Except.ok (some "0,1,0") ∧
    anchorString ⟨2, 0, 0⟩ = "2,0,0" ∧
    coord_within_bb ext421 ⟨2, 0, 0⟩ = true := by
  exact ⟨rfl, rfl, rfl, rfl, rfl⟩

theorem is_NS_not_is_EW {o : Orientation} (h : o.is_NS = true) : o.is_EW = false := by
  cases o <;> simp_all [Orientation.is_EW, Orientation.is_NS]

/-- C7: constructing a Ramp whose bounding-box size along the
orientation's major axis (X for east-west, Y for north-south) is not a
multiple of the ramp length ratio 2 fails with a PreconditionViolation in
Ramp.__init__'s sanity checks — before gen_graph can run, so before any
block is placed in any graph (ramp_new neither takes nor produces a
graph). -/
theorem C7_ramp_sanity_check (ext : ArenaExtent) (o : Orientation)
    (h : (o.is_EW = true ∧ ¬ ext.xsize.emod rampLengthK = 0) ∨
         (o.is_NS = true ∧ ¬ ext.ysize.emod rampLengthK = 0)) :
    ramp_new ext o = Except.error PyError.preconditionViolation := by
  unfold ramp_new ramp_structure_sanity_checks
  rcases h with ⟨hew, hx⟩ | ⟨hns, hy⟩
  · have hx2 : (ext.xsize.emod rampLengthK == 0) = false := by simpa using hx
    simp [hew, hx2]
  · have hy2 : (ext.ysize.emod rampLengthK == 0) = false := by simpa using hy
    simp [is_NS_not_is_EW hns, hy2]

/-- Witness for C7 at the claim's own instance: an east-west ramp with
bounding-box X size 3 fails construction. -/
theorem C7_ramp_sanity_check_witness :
    ramp_new ⟨⟨0, 0, 0⟩, ⟨3, 2, 1⟩⟩ Orientation.E =
      Except.error PyError.preconditionViolation :=
  C7_ramp_sanity_check ⟨⟨0, 0, 0⟩, ⟨3, 2, 1⟩⟩ Orientation.E (Or.inl ⟨rfl, by decide⟩)

/-- C8: the dense beam1 prism over dims (2,2,1) yields, for every
orientation, exactly 4 nodes and exactly 4 edges, every edge of weight 1. -/
theorem C8_beam1prism_2x2x1 :
    ∀ o : Orientation,
      (beam1Prism_gen_graph ext221 o).map
        (fun g => (g.nodes.length, g.edges.length,
                   g.edges.all (fun e => e.2.2 == 1))) =
      Except.ok (4, 4, true) := by
  intro o
  cases o <;> rfl

/-- C9: MixedBeamPrism.gen_graph never returns a graph: for every extent
and orientation it raises NotImplementedError ("Cannot generate mixed
graph--manual specification required") before touching any graph. -/
theorem C9_mixed_not_supported (ext : ArenaExtent) (o : Orientation) :
    mixedBeamPrism_gen_graph ext o = Except.error PyError.notImplementedError := rfl


/-! Characterization lemmas for graph_block_add. -/

theorem hasNode_addNode_self (g : Graph) (k : Int) (a : NodeAttrs) :
    (g.addNode k a).hasNode k = true := by
  show (nodeFindL (g.nodes ++ [(k, a)]) k).isSome = true
  by_cases h : nodeFindL g.nodes k = none
  · rw [nodeFindL_append_none h]
    simp [nodeFindL]
  · obtain ⟨a2, ha⟩ := Option.ne_none_iff_exists'.mp h
    rw [nodeFindL_append_some ha]
    rfl

theorem hasNode_addNode_mono {g : Graph} {k : Int} (k2 : Int) (a : NodeAttrs)
    (h : g.hasNode k = true) : (g.addNode k2 a).hasNode k = true := by
  unfold Graph.hasNode at h
  obtain ⟨a2, ha⟩ := Option.isSome_iff_exists.mp h
  show (nodeFindL (g.nodes ++ [(k2, a)]) k).isSome = true
  rw [nodeFindL_append_some ha]
  rfl

/-- graph_block_add on an occupied descriptor: the assert at line 222
fails, for every kind the attrs construction accepts (any catalog kind). -/
theorem gba_dup (ext : ArenaExtent) (g : Graph) (bt : String) (c : Vector3D)
    (zr : ZRot) (tcode : String)
    (hcat : kBlockTypes bt = some tcode)
    (hocc : g.hasNode (calc_vertex_descriptor ext c) = true) :
    graph_block_add ext g bt c zr = Except.error PyError.preconditionViolation := by
  have hcol : kBlockColors bt = some tcode := by
    unfold kBlockTypes at hcat
    unfold kBlockColors
    exact hcat
  unfold graph_block_add
  rw [hcat, hcol]
  simp only [hocc, if_true]

/-- graph_block_add for a length-1 kind on a fresh descriptor: appends the
anchor node and runs the six-direction weight-1 loop. -/
theorem gba_len1_eq (ext : ArenaExtent) (g : Graph) (bt tcode color : String)
    (c : Vector3D) (zr : ZRot)
    (hcat : kBlockTypes bt = some tcode) (hcol : kBlockColors bt = some color)
    (hlen : blockExtents bt = some 1)
    (hfresh : g.hasNode (calc_vertex_descriptor ext c) = false) :
    graph_block_add ext g bt c zr =
      Except.ok (addNeighborEdges ext
        (g.addNode (calc_vertex_descriptor ext c)
          ⟨tcode, anchorString c, zr.str, color⟩)
        (calc_vertex_descriptor ext c) c beam1Neighbors) := by
  unfold graph_block_add
  rw [hcat, hcol]
  simp only [hfresh, Bool.false_eq_true, if_false, hlen]
  rw [if_neg (by omega : ¬ (1 : Nat) < 1)]

/-- graph_block_add for a kind of length above 1 on a fresh descriptor,
with an Orientation z_rot: the anchor node is appended, a vbeam1
placeholder is appended at the extent neighbor when its descriptor is
free, the long edge is added, and the four-direction weight-1 loop runs. -/
theorem gba_long_cases (ext : ArenaExtent) (g g' : Graph) (bt tcode color : String)
    (c : Vector3D) (o : Orientation) (len : Nat)
    (hcat : kBlockTypes bt = some tcode) (hcol : kBlockColors bt = some color)
    (hlen : blockExtents bt = some len) (hgt : 1 < len)
    (hadd : graph_block_add ext g bt c (ZRot.rot o) = Except.ok g') :
    g.hasNode (calc_vertex_descriptor ext c) = false ∧
    ∃ mid : Graph,
      ((g.addNode (calc_vertex_descriptor ext c)
          ⟨tcode, anchorString c, (ZRot.rot o).str, color⟩).hasNode
          (calc_vertex_descriptor ext (extent_anchor_neighbor c len o)) = true ∧
        mid = g.addNode (calc_vertex_descriptor ext c)
          ⟨tcode, anchorString c, (ZRot.rot o).str, color⟩ ∨
       (g.addNode (calc_vertex_descriptor ext c)
          ⟨tcode, anchorString c, (ZRot.rot o).str, color⟩).hasNode
          (calc_vertex_descriptor ext (extent_anchor_neighbor c len o)) = false ∧
        mid = (g.addNode (calc_vertex_descriptor ext c)
          ⟨tcode, anchorString c, (ZRot.rot o).str, color⟩).addNode
          (calc_vertex_descriptor ext (extent_anchor_neighbor c len o))
          ⟨"vbeam1", anchorString (extent_anchor_neighbor c len o), (ZRot.rot o).str,
           "vbeam1"⟩) ∧
      g' = addNeighborEdges ext
        (mid.addEdge (calc_vertex_descriptor ext c)
          (calc_vertex_descriptor ext (extent_anchor_neighbor c len o)) len)
        (calc_vertex_descriptor ext c) c (originAnchorNeighbors o) := by
  unfold graph_block_add at hadd
  rw [hcat, hcol] at hadd
  by_cases hfresh : g.hasNode (calc_vertex_descriptor ext c) = true
  · simp only [hfresh, if_true] at hadd
    exact absurd hadd (by simp)
  · have hfresh2 : g.hasNode (calc_vertex_descriptor ext c) = false := by
      simpa using hfresh
    refine ⟨hfresh2, ?_⟩
    simp only [hfresh2, Bool.false_eq_true, if_false, hlen] at hadd
    rw [if_pos hgt] at hadd
    by_cases hext : (g.addNode (calc_vertex_descriptor ext c)
        ⟨tcode, anchorString c, (ZRot.rot o).str, color⟩).hasNode
        (calc_vertex_descriptor ext (extent_anchor_neighbor c len o)) = true
    · refine ⟨_, Or.inl ⟨hext, rfl⟩, ?_⟩
      rw [if_pos hext] at hadd
      exact (Except.ok.inj hadd).symm
    · have hext2 : (g.addNode (calc_vertex_descriptor ext c)
          ⟨tcode, anchorString c, (ZRot.rot o).str, color⟩).hasNode
          (calc_vertex_descriptor ext (extent_anchor_neighbor c len o)) = false := by
        simpa using hext
      refine ⟨_, Or.inr ⟨hext2, rfl⟩, ?_⟩
      rw [if_neg (by simp [hext2])] at hadd
      exact (Except.ok.inj hadd).symm

/-- Invariant propagation along a loop: when every loop step only appends
nodes satisfying P, so does the whole loop. -/
theorem runSteps_node_inv {α : Type} (P : Int × NodeAttrs → Prop)
    (step : Graph → α → Except PyError Graph)
    (hstep : ∀ g x g', step g x = Except.ok g' →
      ∀ p, p ∈ g'.nodes → p ∈ g.nodes ∨ P p) :
    ∀ (xs : List α) (g g' : Graph), runSteps step g xs = Except.ok g' →
      ∀ p, p ∈ g'.nodes → p ∈ g.nodes ∨ P p := by
  intro xs
  induction xs with
  | nil =>
    intro g g' h p hp
    exact Or.inl ((Except.ok.inj h) ▸ hp)
  | cons x rest ih =>
    intro g g' h p hp
    unfold runSteps at h
    cases hs : step g x with
    | error e => rw [hs] at h; exact absurd h (by simp)
    | ok g2 =>
      rw [hs] at h
      rcases ih g2 g' h p hp with h2 | h2
      · exact hstep g x g2 hs p h2
      · exact Or.inr h2


theorem catalog_of_extents {bt : String} {len : Nat} (h : blockExtents bt = some len) :
    kBlockTypes bt = some bt ∧ kBlockColors bt = some bt := by
  unfold blockExtents at h
  split_ifs at h with h1 h2 h3 h4
  · have hb : bt = "vbeam1" := by simpa using h1
    subst hb; exact ⟨rfl, rfl⟩
  · have hb : bt = "beam1" := by simpa using h2
    subst hb; exact ⟨rfl, rfl⟩
  · have hb : bt = "beam2" := by simpa using h3
    subst hb; exact ⟨rfl, rfl⟩
  · have hb : bt = "beam3" := by simpa using h4
    subst hb; exact ⟨rfl, rfl⟩

theorem hasNode_false_find_none {g : Graph} {k : Int} (h : g.hasNode k = false) :
    nodeFindL g.nodes k = none := by
  cases hopt : nodeFindL g.nodes k with
  | none => rfl
  | some a => unfold Graph.hasNode at h; rw [hopt] at h; simp at h

/-- C3: the claim says a length-over-1 insertion adds weight-1 edges in
five directions including +Z.  The code iterates only four: -Z plus the
three laterals other than the extent direction (originAnchorNeighbors, in
which zplus1 never occurs).  This theorem is the amended claim: for every
direction the code does iterate, an in-bounds neighbor that already has a
node receives a weight-1 edge from the anchor, and in-bounds neighbors
with no node are skipped (they receive no edge, as the loop's membership
guard shows); +Z is not among the iterated directions. -/
theorem C3_weight1_edges (ext : ArenaExtent) (g g' : Graph)
    (bt : String) (len : Nat) (c d : Vector3D) (o : Orientation)
    (hlen : blockExtents bt = some len) (hgt : 1 < len)
    (hadd : graph_block_add ext g bt c (ZRot.rot o) = Except.ok g')
    (hd : d ∈ originAnchorNeighbors o)
    (hbb : coord_within_bb ext (c.add d) = true)
    (hn : g.hasNode (calc_vertex_descriptor ext (c.add d)) = true) :
    g'.edgeWeight (calc_vertex_descriptor ext c)
      (calc_vertex_descriptor ext (c.add d)) = some 1 ∧
    zplus1 ∉ originAnchorNeighbors o := by
  obtain ⟨hct, hcl⟩ := catalog_of_extents hlen
  obtain ⟨hfresh, mid, hmid, hg2⟩ :=
    gba_long_cases ext g g' bt bt bt c o len hct hcl hlen hgt hadd
  subst hg2
  constructor
  · apply addNeighborEdges_adds ext (originAnchorNeighbors o) _ _ c d hd hbb
    rw [addEdge_hasNode]
    rcases hmid with ⟨hext, rfl⟩ | ⟨hext, rfl⟩
    · exact hasNode_addNode_mono _ _ hn
    · exact hasNode_addNode_mono _ _ (hasNode_addNode_mono _ _ hn)
  · cases o <;> decide

def c3BaseGraph : Graph :=
  ⟨[(1, ⟨"beam1", "1,0,0", "0", "beam1"⟩)], []⟩

def c3WitnessGraph : Graph :=
  ⟨[(1, ⟨"beam1", "1,0,0", "0", "beam1"⟩),
    (4, ⟨"beam2", "1,1,0", "PI/2", "beam2"⟩),
    (10, ⟨"vbeam1", "1,3,0", "PI/2", "vbeam1"⟩)],
   [(4, 10, 2), (4, 1, 1)]⟩

/-- Witness for C3_weight1_edges: inserting beam2 at (1,1,0) facing N into
a graph holding a beam1 at (1,0,0) (descriptor 1) wires the anchor
(descriptor 4) to that -Y neighbor with weight 1, and +Z is not iterated. -/
theorem C3_weight1_edges_witness :
    Graph.edgeWeight c3WitnessGraph 4 1 = some 1 ∧
    zplus1 ∉ originAnchorNeighbors Orientation.N :=
  C3_weight1_edges ext332 c3BaseGraph c3WitnessGraph "beam2" 2 ⟨1, 1, 0⟩ yminus1
    Orientation.N rfl (by omega) rfl (by decide) rfl rfl

def c3Graph : Except PyError Graph :=
  match graph_block_add ext332 emptyGraph "beam1" ⟨1, 1, 1⟩ (ZRot.rot Orientation.E) with
  | Except.error e => Except.error e
  | Except.ok g1 => graph_block_add ext332 g1 "beam2" ⟨1, 1, 0⟩ (ZRot.rot Orientation.N)

/-- C3 counterexample to the claim as stated: in extent (3,3,2), after a
beam1 block at (1,1,1) exists, inserting beam2 at (1,1,0) facing N leaves
the +Z neighbor (1,1,1) — in-bounds and occupied by a node — without any
edge to the anchor, though the claim's five-direction reading (including
+Z) requires a weight-1 edge there. -/
theorem C3_counterexample_no_zplus_edge :
    coord_within_bb ext332 (Vector3D.add ⟨1, 1, 0⟩ zplus1) = true ∧
    c3Graph.map (fun g =>
      (g.hasNode (calc_vertex_descriptor ext332 (Vector3D.add ⟨1, 1, 0⟩ zplus1)),
       g.hasEdge (calc_vertex_descriptor ext332 ⟨1, 1, 0⟩)
         (calc_vertex_descriptor ext332 (Vector3D.add ⟨1, 1, 0⟩ zplus1)))) =
      Except.ok (true, false) :=
  ⟨rfl, rfl⟩

theorem addEdge_edges_ext {g0 h : Graph} {vd : Int} {extra : List (Int × Int × Nat)}
    (hnovd : ∀ e ∈ g0.edges, e.1 ≠ vd ∧ e.2.1 ≠ vd)
    (hh : h.edges = g0.edges ++ extra)
    (hex : ∀ e ∈ extra, e.1 = vd ∨ e.2.1 = vd)
    (nvd : Int) (w : Nat) :
    ∃ extra2, (h.addEdge vd nvd w).edges = g0.edges ++ extra2 ∧
      ∀ e ∈ extra2, e.1 = vd ∨ e.2.1 = vd := by
  refine ⟨extra.filter (fun e => !edgeMatches vd nvd e) ++ [(vd, nvd, w)], ?_, ?_⟩
  · show (h.edges.filter (fun e => !edgeMatches vd nvd e)) ++ [(vd, nvd, w)] = _
    rw [hh, List.filter_append]
    have h1 : g0.edges.filter (fun e => !edgeMatches vd nvd e) = g0.edges :=
      List.filter_eq_self.mpr (fun e he => by
        obtain ⟨hx, hy⟩ := hnovd e he
        have hbx : (e.1 == vd) = false := by simpa using hx
        have hby : (e.2.1 == vd) = false := by simpa using hy
        simp [edgeMatches, hbx, hby])
    rw [h1, List.append_assoc]
  · intro e he
    rcases List.mem_append.mp he with h1 | h1
    · exact hex e (List.mem_filter.mp h1).1
    · rw [List.mem_singleton.mp h1]
      exact Or.inl rfl

theorem addNeighborEdges_edges_ext {g0 : Graph} {vd : Int}
    (hnovd : ∀ e ∈ g0.edges, e.1 ≠ vd ∧ e.2.1 ≠ vd) (ext : ArenaExtent) :
    ∀ (dirs : List Vector3D) (h : Graph) (extra : List (Int × Int × Nat)) (c : Vector3D),
      h.edges = g0.edges ++ extra →
      (∀ e ∈ extra, e.1 = vd ∨ e.2.1 = vd) →
      ∃ extra2, (addNeighborEdges ext h vd c dirs).edges = g0.edges ++ extra2 ∧
        ∀ e ∈ extra2, e.1 = vd ∨ e.2.1 = vd := by
  intro dirs
  induction dirs with
  | nil => intro h extra c hh hex; exact ⟨extra, hh, hex⟩
  | cons n rest ih =>
    intro h extra c hh hex
    show ∃ extra2, (addNeighborEdges ext _ vd c rest).edges = g0.edges ++ extra2 ∧
      ∀ e ∈ extra2, e.1 = vd ∨ e.2.1 = vd
    split
    · exact ih h extra c hh hex
    · split
      · exact ih h extra c hh hex
      · obtain ⟨extra2, h2, hex2⟩ :=
          addEdge_edges_ext hnovd hh hex (calc_vertex_descriptor ext (c.add n)) 1
        exact ih _ extra2 c h2 hex2

theorem restore_core (ext : ArenaExtent) (g g'' : Graph) (vd : Int) (a : NodeAttrs)
    (G : Graph) (D : List Vector3D) (c : Vector3D)
    (hfresh : g.hasNode vd = false)
    (hnovd : ∀ e ∈ g.edges, e.1 ≠ vd ∧ e.2.1 ≠ vd)
    (hGn : G.nodes = g.nodes ++ [(vd, a)])
    (hGe : ∃ extra, G.edges = g.edges ++ extra ∧ ∀ e ∈ extra, e.1 = vd ∨ e.2.1 = vd)
    (hrem : (addNeighborEdges ext G vd c D).removeNode vd = Except.ok g'') :
    g'' = g := by
  obtain ⟨extra, hGe2, hex⟩ := hGe
  obtain ⟨extra2, hge, hex2⟩ := addNeighborEdges_edges_ext hnovd ext D G extra c hGe2 hex
  have hgn : (addNeighborEdges ext G vd c D).nodes = g.nodes ++ [(vd, a)] := by
    rw [addNeighborEdges_nodes]; exact hGn
  have hfind : nodeFindL g.nodes vd = none := hasNode_false_find_none hfresh
  have hhas : (addNeighborEdges ext G vd c D).hasNode vd = true := by
    show (nodeFindL (addNeighborEdges ext G vd c D).nodes vd).isSome = true
    rw [hgn, nodeFindL_append_none hfind]
    simp [nodeFindL]
  unfold Graph.removeNode at hrem
  rw [if_pos hhas] at hrem
  have hg2 := (Except.ok.inj hrem).symm
  rw [hg2]
  have hn2 : ((addNeighborEdges ext G vd c D).nodes.filter (fun p => !(p.1 == vd))) =
      g.nodes := by
    rw [hgn, List.filter_append]
    have h1 : g.nodes.filter (fun p => !(p.1 == vd)) = g.nodes :=
      List.filter_eq_self.mpr (fun p hp => by
        rw [nodeFindL_none_forall hfind p hp]; rfl)
    rw [h1]
    simp
  have he2 : ((addNeighborEdges ext G vd c D).edges.filter
      (fun e => !(e.1 == vd || e.2.1 == vd))) = g.edges := by
    rw [hge, List.filter_append]
    have h1 : g.edges.filter (fun e => !(e.1 == vd || e.2.1 == vd)) = g.edges :=
      List.filter_eq_self.mpr (fun e he => by
        obtain ⟨hx, hy⟩ := hnovd e he
        have hbx : (e.1 == vd) = false := by simpa using hx
        have hby : (e.2.1 == vd) = false := by simpa using hy
        rw [hbx, hby]; rfl)
    have h2 : extra2.filter (fun e => !(e.1 == vd || e.2.1 == vd)) = [] :=
      List.filter_eq_nil_iff.mpr (fun e he => by
        rcases hex2 e he with hx | hy
        · simp [hx]
        · simp [hy])
    rw [h1, h2, List.append_nil]
  rw [hn2, he2]


theorem gba_long_intval (ext : ArenaExtent) (g : Graph) (bt tcode color : String)
    (c : Vector3D) (n : Int) (len : Nat)
    (hcat : kBlockTypes bt = some tcode) (hcol : kBlockColors bt = some color)
    (hlen : blockExtents bt = some len) (hgt : 1 < len) :
    graph_block_add ext g bt c (ZRot.intval n) = Except.error PyError.preconditionViolation ∨
    graph_block_add ext g bt c (ZRot.intval n) = Except.error PyError.attributeError := by
  unfold graph_block_add
  rw [hcat, hcol]
  by_cases hocc : g.hasNode (calc_vertex_descriptor ext c) = true
  · left; simp [hocc]
  · right
    have h2 : g.hasNode (calc_vertex_descriptor ext c) = false := by simpa using hocc
    simp only [h2, Bool.false_eq_true, if_false, hlen]
    rw [if_pos hgt]

theorem wfB_no_vd {g : Graph} {vd : Int} (hwf : g.wfB = true)
    (hfresh : g.hasNode vd = false) :
    ∀ e ∈ g.edges, e.1 ≠ vd ∧ e.2.1 ≠ vd := by
  intro e he
  unfold Graph.wfB at hwf
  have h2 := List.all_eq_true.mp hwf e he
  have h3 : g.hasNode e.1 = true ∧ g.hasNode e.2.1 = true := by simpa using h2
  obtain ⟨ha, hb⟩ := h3
  constructor
  · intro heq; rw [heq] at ha; rw [ha] at hfresh; simp at hfresh
  · intro heq; rw [heq] at hb; rw [hb] at hfresh; simp at hfresh

/-- C4: the claim says add_block then remove_block at the same anchor
always restores the graph, for every block kind including lengths above 1.
The code restores it only when no virtual placeholder was synthesized:
this theorem is the amended claim — restoration holds for every length-1
kind unconditionally, and for a longer kind exactly when a node already
occupies the extent-neighbor descriptor (hside); the counterexample shows
the remaining case leaves the placeholder behind. -/
theorem C4_add_remove_restores (ext : ArenaExtent) (g g' g'' : Graph)
    (bt : String) (c : Vector3D) (zr : ZRot) (len : Nat)
    (hwf : g.wfB = true)
    (hlen : blockExtents bt = some len)
    (hside : ∀ o, zr = ZRot.rot o → 1 < len →
      g.hasNode (calc_vertex_descriptor ext (extent_anchor_neighbor c len o)) = true)
    (hadd : graph_block_add ext g bt c zr = Except.ok g')
    (hrem : graph_block_remove ext g' c = Except.ok g'') :
    g'' = g := by
  obtain ⟨hct, hcl⟩ := catalog_of_extents hlen
  by_cases hocc : g.hasNode (calc_vertex_descriptor ext c) = true
  · rw [gba_dup ext g bt c zr bt hct hocc] at hadd
    exact absurd hadd (by simp)
  have hfresh : g.hasNode (calc_vertex_descriptor ext c) = false := by simpa using hocc
  have hnovd := wfB_no_vd hwf hfresh
  by_cases hgt : 1 < len
  · cases zr with
    | intval n =>
      rcases gba_long_intval ext g bt bt bt c n len hct hcl hlen hgt with h2 | h2 <;>
        · rw [h2] at hadd; exact absurd hadd (by simp)
    | rot o =>
      obtain ⟨_, mid, hmid, hg2⟩ :=
        gba_long_cases ext g g' bt bt bt c o len hct hcl hlen hgt hadd
      have hextnode := hside o rfl hgt
      rcases hmid with ⟨hext, hmid2⟩ | ⟨hext, hmid2⟩
      · subst hmid2
        subst hg2
        have hrem2 : (addNeighborEdges ext
            ((g.addNode (calc_vertex_descriptor ext c)
              ⟨bt, anchorString c, (ZRot.rot o).str, bt⟩).addEdge
                (calc_vertex_descriptor ext c)
                (calc_vertex_descriptor ext (extent_anchor_neighbor c len o)) len)
            (calc_vertex_descriptor ext c) c (originAnchorNeighbors o)).removeNode
            (calc_vertex_descriptor ext c) = Except.ok g'' := hrem
        refine restore_core ext g g'' (calc_vertex_descriptor ext c)
          ⟨bt, anchorString c, (ZRot.rot o).str, bt⟩
          ((g.addNode (calc_vertex_descriptor ext c)
            ⟨bt, anchorString c, (ZRot.rot o).str, bt⟩).addEdge
              (calc_vertex_descriptor ext c)
              (calc_vertex_descriptor ext (extent_anchor_neighbor c len o)) len)
          (originAnchorNeighbors o) c hfresh hnovd rfl ?_ hrem2
        refine ⟨[((calc_vertex_descriptor ext c),
          (calc_vertex_descriptor ext (extent_anchor_neighbor c len o)), len)], ?_, ?_⟩
        · show ((g.addNode (calc_vertex_descriptor ext c)
              ⟨bt, anchorString c, (ZRot.rot o).str, bt⟩).edges.filter
              (fun e => !edgeMatches (calc_vertex_descriptor ext c)
                (calc_vertex_descriptor ext (extent_anchor_neighbor c len o)) e)) ++
            [((calc_vertex_descriptor ext c),
              (calc_vertex_descriptor ext (extent_anchor_neighbor c len o)), len)] = _
          have h1 : (g.addNode (calc_vertex_descriptor ext c)
              ⟨bt, anchorString c, (ZRot.rot o).str, bt⟩).edges = g.edges := rfl
          rw [h1]
          have h2 : g.edges.filter (fun e => !edgeMatches (calc_vertex_descriptor ext c)
              (calc_vertex_descriptor ext (extent_anchor_neighbor c len o)) e) = g.edges :=
            List.filter_eq_self.mpr (fun e he => by
              obtain ⟨hx, hy⟩ := hnovd e he
              have hbx : (e.1 == calc_vertex_descriptor ext c) = false := by simpa using hx
              have hby : (e.2.1 == calc_vertex_descriptor ext c) = false := by simpa using hy
              simp [edgeMatches, hbx, hby])
          rw [h2]
        · intro e he
          rw [List.mem_singleton.mp he]
          exact Or.inl rfl
      · exfalso
        have h3 := hasNode_addNode_mono (calc_vertex_descriptor ext c)
          (⟨bt, anchorString c, (ZRot.rot o).str, bt⟩ : NodeAttrs) hextnode
        rw [h3] at hext
        simp at hext
  · have hl1 : len = 1 := by
      unfold blockExtents at hlen
      split_ifs at hlen
      all_goals first
        | (have h4 := Option.some.inj hlen; omega)
        | exact absurd hlen (by simp)
    subst hl1
    rw [gba_len1_eq ext g bt bt bt c zr hct hcl hlen hfresh] at hadd
    have hg2 := (Except.ok.inj hadd).symm
    subst hg2
    have hrem2 : (addNeighborEdges ext
        (g.addNode (calc_vertex_descriptor ext c) ⟨bt, anchorString c, zr.str, bt⟩)
        (calc_vertex_descriptor ext c) c beam1Neighbors).removeNode
        (calc_vertex_descriptor ext c) = Except.ok g'' := hrem
    refine restore_core ext g g'' (calc_vertex_descriptor ext c)
      ⟨bt, anchorString c, zr.str, bt⟩
      (g.addNode (calc_vertex_descriptor ext c) ⟨bt, anchorString c, zr.str, bt⟩)
      beam1Neighbors c hfresh hnovd rfl
      ⟨[], by simp [Graph.addNode], fun e he => absurd he (by simp)⟩ hrem2


def c4Result : Except PyError Graph :=
  match graph_block_add ext331 emptyGraph "beam2" ⟨0, 0, 0⟩ (ZRot.rot Orientation.E) with
  | Except.error e => Except.error e
  | Except.ok g => graph_block_remove ext331 g ⟨0, 0, 0⟩

/-- C4 counterexample to the claim as stated: inserting beam2 at (0,0,0)
facing E into the empty graph over extent (3,3,1) synthesizes a vbeam1
placeholder at the extent neighbor (2,0,0); the immediate removal at the
same anchor deletes only the anchor node and its incident edges, so the
graph keeps the placeholder node instead of returning to the empty
pre-insertion state. -/
theorem C4_counterexample_placeholder_remains :
    c4Result = Except.ok ⟨[(2, ⟨"vbeam1", "2,0,0", "0", "vbeam1"⟩)], []⟩ ∧
    (⟨[(2, ⟨"vbeam1", "2,0,0", "0", "vbeam1"⟩)], []⟩ : Graph) ≠ emptyGraph := by
  refine ⟨rfl, ?_⟩
  decide

def c4wAdded : Graph := ⟨[(0, ⟨"beam1", "0,0,0", "0", "beam1"⟩)], []⟩

/-- Witness for C4_add_remove_restores: beam1 at (0,0,0) into the empty
graph over extent (2,2,1), then removal at the same anchor, restores the
empty graph. -/
theorem C4_add_remove_restores_witness :
    graph_block_add ext221 emptyGraph "beam1" ⟨0, 0, 0⟩ (ZRot.rot Orientation.E) =
      Except.ok c4wAdded ∧
    graph_block_remove ext221 c4wAdded ⟨0, 0, 0⟩ = Except.ok emptyGraph ∧
    emptyGraph = emptyGraph :=
  ⟨rfl, rfl,
    C4_add_remove_restores ext221 emptyGraph c4wAdded emptyGraph "beam1"
      ⟨0, 0, 0⟩ (ZRot.rot Orientation.E) 1 rfl rfl
      (fun o ho hgt => absurd hgt (by omega)) rfl rfl⟩

theorem gba_long_eq (ext : ArenaExtent) (g : Graph) (bt tcode color : String)
    (c : Vector3D) (o : Orientation) (len : Nat)
    (hcat : kBlockTypes bt = some tcode) (hcol : kBlockColors bt = some color)
    (hlen : blockExtents bt = some len) (hgt : 1 < len)
    (hfresh : g.hasNode (calc_vertex_descriptor ext c) = false) :
    graph_block_add ext g bt c (ZRot.rot o) =
      Except.ok (addNeighborEdges ext
        ((if (g.addNode (calc_vertex_descriptor ext c)
              ⟨tcode, anchorString c, (ZRot.rot o).str, color⟩).hasNode
              (calc_vertex_descriptor ext (extent_anchor_neighbor c len o)) = true
          then g.addNode (calc_vertex_descriptor ext c)
              ⟨tcode, anchorString c, (ZRot.rot o).str, color⟩
          else (g.addNode (calc_vertex_descriptor ext c)
              ⟨tcode, anchorString c, (ZRot.rot o).str, color⟩).addNode
              (calc_vertex_descriptor ext (extent_anchor_neighbor c len o))
              ⟨"vbeam1", anchorString (extent_anchor_neighbor c len o),
               (ZRot.rot o).str, "vbeam1"⟩).addEdge
          (calc_vertex_descriptor ext c)
          (calc_vertex_descriptor ext (extent_anchor_neighbor c len o)) len)
        (calc_vertex_descriptor ext c) c (originAnchorNeighbors o)) := by
  unfold graph_block_add
  rw [hcat, hcol]
  simp only [hfresh, Bool.false_eq_true, if_false, hlen]
  rw [if_pos hgt]

/-- C6: the first half of the claim holds for every catalog kind: a second
insertion at an occupied descriptor is a fatal PreconditionViolation (the
assert at line 222), never a silent no-op.  The second half holds for the
kinds graph_block_add can insert (those in its local extents table:
vbeam1, beam1, beam2, beam3): on a fresh descriptor the insertion succeeds
and stores the node with exactly the attrs of lines 216-221.  For the
catalog kinds ramp and ramp2, covered by the claim's "every block kind"
but absent from the extents table, a fresh insertion raises KeyError
instead of succeeding (the counterexample), which this amended form
excludes. -/
theorem C6_insert_checked :
    (∀ (ext : ArenaExtent) (g : Graph) (bt : String) (c : Vector3D) (zr : ZRot)
        (tcode : String),
      kBlockTypes bt = some tcode →
      g.hasNode (calc_vertex_descriptor ext c) = true →
      graph_block_add ext g bt c zr = Except.error PyError.preconditionViolation) ∧
    (∀ (ext : ArenaExtent) (g : Graph) (bt : String) (c : Vector3D) (o : Orientation)
        (len : Nat),
      blockExtents bt = some len →
      g.hasNode (calc_vertex_descriptor ext c) = false →
      addResultAttrs (graph_block_add ext g bt c (ZRot.rot o))
          (calc_vertex_descriptor ext c) =
        some ⟨bt, anchorString c, (ZRot.rot o).str, bt⟩) := by
  constructor
  · intro ext g bt c zr tcode hcat hocc
    exact gba_dup ext g bt c zr tcode hcat hocc
  · intro ext g bt c o len hlen hfresh
    obtain ⟨hct, hcl⟩ := catalog_of_extents hlen
    have hfind : nodeFindL g.nodes (calc_vertex_descriptor ext c) = none :=
      hasNode_false_find_none hfresh
    by_cases hgt : 1 < len
    · rw [gba_long_eq ext g bt bt bt c o len hct hcl hlen hgt hfresh]
      show nodeFindL (addNeighborEdges ext _ _ c _).nodes
        (calc_vertex_descriptor ext c) = _
      rw [addNeighborEdges_nodes, addEdge_nodes]
      split
      · show nodeFindL (g.nodes ++ [((calc_vertex_descriptor ext c),
          ⟨bt, anchorString c, (ZRot.rot o).str, bt⟩)]) (calc_vertex_descriptor ext c) = _
        rw [nodeFindL_append_none hfind]
        simp [nodeFindL]
      · show nodeFindL ((g.nodes ++ [((calc_vertex_descriptor ext c),
          ⟨bt, anchorString c, (ZRot.rot o).str, bt⟩)]) ++
          [((calc_vertex_descriptor ext (extent_anchor_neighbor c len o)),
            ⟨"vbeam1", anchorString (extent_anchor_neighbor c len o),
             (ZRot.rot o).str, "vbeam1"⟩)]) (calc_vertex_descriptor ext c) = _
        have h1 : nodeFindL (g.nodes ++ [((calc_vertex_descriptor ext c),
            (⟨bt, anchorString c, (ZRot.rot o).str, bt⟩ : NodeAttrs))])
            (calc_vertex_descriptor ext c) =
            some ⟨bt, anchorString c, (ZRot.rot o).str, bt⟩ := by
          rw [nodeFindL_append_none hfind]
          simp [nodeFindL]
        rw [nodeFindL_append_some h1]
    · have hl1 : len = 1 := by
        unfold blockExtents at hlen
        split_ifs at hlen
        all_goals first
          | (have h4 := Option.some.inj hlen; omega)
          | exact absurd hlen (by simp)
      subst hl1
      rw [gba_len1_eq ext g bt bt bt c (ZRot.rot o) hct hcl hlen hfresh]
      show nodeFindL (addNeighborEdges ext _ _ c _).nodes
        (calc_vertex_descriptor ext c) = _
      rw [addNeighborEdges_nodes]
      show nodeFindL (g.nodes ++ [((calc_vertex_descriptor ext c),
        ⟨bt, anchorString c, (ZRot.rot o).str, bt⟩)]) (calc_vertex_descriptor ext c) = _
      rw [nodeFindL_append_none hfind]
      simp [nodeFindL]

/-- C6 counterexample to the claim as stated: kind 'ramp' is a catalog
kind, the target descriptor is free, yet graph_block_add raises KeyError
(the extents dict of lines 209-214 has no 'ramp' entry) instead of
inserting the node. -/
theorem C6_counterexample_ramp_keyerror :
    graph_block_add ext221 emptyGraph "ramp" ⟨0, 0, 0⟩ (ZRot.rot Orientation.E) =
      Except.error PyError.keyError ∧
    kBlockTypes "ramp" = some "ramp" ∧
    emptyGraph.hasNode (calc_vertex_descriptor ext221 ⟨0, 0, 0⟩) = false :=
  ⟨rfl, rfl, rfl⟩

/-- Witness instantiating both halves of C6_insert_checked: a duplicate
beam3 insertion fails, and a fresh beam3 insertion stores the node with
its four attributes. -/
theorem C6_insert_checked_witness :
    graph_block_add ext221 (Graph.mk [(0, ⟨"beam1", "0,0,0", "0", "beam1"⟩)] [])
      "beam3" ⟨0, 0, 0⟩ (ZRot.rot Orientation.N) =
        Except.error PyError.preconditionViolation ∧
    addResultAttrs (graph_block_add ext221 emptyGraph "beam3" ⟨1, 0, 0⟩
        (ZRot.rot Orientation.N)) (calc_vertex_descriptor ext221 ⟨1, 0, 0⟩) =
      some ⟨"beam3", "1,0,0", "PI/2", "beam3"⟩ :=
  ⟨C6_insert_checked.1 ext221 (Graph.mk [(0, ⟨"beam1", "0,0,0", "0", "beam1"⟩)] [])
      "beam3" ⟨0, 0, 0⟩ (ZRot.rot Orientation.N) "beam3" rfl rfl,
   C6_insert_checked.2 ext221 emptyGraph "beam3" ⟨1, 0, 0⟩ Orientation.N 3 rfl rfl⟩


theorem shell_step_len1 (ext2 : ArenaExtent) (g2 g3 : Graph) (c2 : Vector3D)
    (hocc2 : g2.hasNode (calc_vertex_descriptor ext2 c2) = false)
    (hs : graph_block_add ext2 g2 "vbeam1" c2 (ZRot.rot orientation0) = Except.ok g3) :
    ∀ p, p ∈ g3.nodes → p ∈ g2.nodes ∨ p.2.zrot = Orientation.toStr orientation0 := by
  intro p hp
  rw [gba_len1_eq ext2 g2 "vbeam1" "vbeam1" "vbeam1" c2 (ZRot.rot orientation0)
    rfl rfl rfl hocc2] at hs
  have h1 := (Except.ok.inj hs)
  rw [← h1] at hp
  rw [addNeighborEdges_nodes] at hp
  have hp2 : p ∈ g2.nodes ++ [((calc_vertex_descriptor ext2 c2),
    (⟨"vbeam1", anchorString c2, (ZRot.rot orientation0).str, "vbeam1"⟩ : NodeAttrs))] := hp
  rcases List.mem_append.mp hp2 with h2 | h2
  · exact Or.inl h2
  · right
    rw [List.mem_singleton.mp h2]
    rfl

/-- C10: when graph_block_add synthesizes the vbeam1 placeholder at the
extent neighbor of a block of length above 1, the placeholder's
z-rotation attribute is str(z_rot) — the inserted block's rotation (line
254) — whereas every virtual node the complement-shell and boundary-shell
passes insert carries the default str(Orientation("0")); for any non-zero
rotation the two virtual-node creation paths therefore produce
differently-attributed nodes. -/
theorem C10_virtual_node_rotation (ext : ArenaExtent) (g g' : Graph)
    (bt : String) (c : Vector3D) (o : Orientation) (len : Nat)
    (hlen : blockExtents bt = some len) (hgt : 1 < len)
    (hne : calc_vertex_descriptor ext c ≠
      calc_vertex_descriptor ext (extent_anchor_neighbor c len o))
    (hext : g.hasNode (calc_vertex_descriptor ext (extent_anchor_neighbor c len o)) = false)
    (hadd : graph_block_add ext g bt c (ZRot.rot o) = Except.ok g') :
    g'.nodeZrot (calc_vertex_descriptor ext (extent_anchor_neighbor c len o)) =
      some o.toStr ∧
    (∀ (ext2 : ArenaExtent) (g2 g2' : Graph),
      graph_complement_shell_add ext2 g2 = Except.ok g2' →
      ∀ p, p ∈ g2'.nodes → p ∈ g2.nodes ∨ p.2.zrot = Orientation.toStr orientation0) ∧
    (∀ (ext2 : ArenaExtent) (g2 g2' : Graph),
      graph_virtual_shell_add ext2 g2 = Except.ok g2' →
      ∀ p, p ∈ g2'.nodes → p ∈ g2.nodes ∨ p.2.zrot = Orientation.toStr orientation0) ∧
    (o ≠ orientation0 → o.toStr ≠ Orientation.toStr orientation0) := by
  obtain ⟨hct, hcl⟩ := catalog_of_extents hlen
  obtain ⟨hfresh, mid, hmid, hg2⟩ :=
    gba_long_cases ext g g' bt bt bt c o len hct hcl hlen hgt hadd
  have hfindext : nodeFindL g.nodes
    (calc_vertex_descriptor ext (extent_anchor_neighbor c len o)) = none :=
    hasNode_false_find_none hext
  have h5 : nodeFindL (g.nodes ++ [((calc_vertex_descriptor ext c),
      (⟨bt, anchorString c, (ZRot.rot o).str, bt⟩ : NodeAttrs))])
      (calc_vertex_descriptor ext (extent_anchor_neighbor c len o)) = none := by
    rw [nodeFindL_append_none hfindext]
    have hb : ((calc_vertex_descriptor ext c) ==
        (calc_vertex_descriptor ext (extent_anchor_neighbor c len o))) = false := by
      simpa using hne
    simp [nodeFindL, hb]
  refine ⟨?_, ?_, ?_, ?_⟩
  · rcases hmid with ⟨hex1, hmid2⟩ | ⟨hex1, hmid2⟩
    · exfalso
      have hex2 : (nodeFindL (g.nodes ++ [((calc_vertex_descriptor ext c),
          (⟨bt, anchorString c, (ZRot.rot o).str, bt⟩ : NodeAttrs))])
          (calc_vertex_descriptor ext (extent_anchor_neighbor c len o))).isSome =
          true := hex1
      rw [h5] at hex2
      simp at hex2
    · subst hg2
      unfold Graph.nodeZrot
      rw [addNeighborEdges_nodes, addEdge_nodes, hmid2]
      show (nodeFindL ((g.nodes ++ [((calc_vertex_descriptor ext c),
        (⟨bt, anchorString c, (ZRot.rot o).str, bt⟩ : NodeAttrs))]) ++
        [((calc_vertex_descriptor ext (extent_anchor_neighbor c len o)),
          (⟨"vbeam1", anchorString (extent_anchor_neighbor c len o),
           (ZRot.rot o).str, "vbeam1"⟩ : NodeAttrs))])
        (calc_vertex_descriptor ext (extent_anchor_neighbor c len o))).map
        NodeAttrs.zrot = some o.toStr
      rw [nodeFindL_append_none h5]
      simp [nodeFindL]
      rfl
  · intro ext2 g2 g2' hrun p hp
    have hrun2 : runSteps (fun g3 c3 =>
        if !(g3.hasNode (calc_vertex_descriptor ext2 c3)) then
          graph_block_add ext2 g3 "vbeam1" c3 (ZRot.rot orientation0)
        else Except.ok g3) g2 (complementCoords ext2) = Except.ok g2' := hrun
    refine runSteps_node_inv (fun q => q.2.zrot = Orientation.toStr orientation0) _ ?_
      (complementCoords ext2) g2 g2' hrun2 p hp
    intro ga x ga' hstep p2 hp2
    have hstep0 : (if !(ga.hasNode (calc_vertex_descriptor ext2 x)) then
        graph_block_add ext2 ga "vbeam1" x (ZRot.rot orientation0)
      else Except.ok ga) = Except.ok ga' := hstep
    by_cases hocc : ga.hasNode (calc_vertex_descriptor ext2 x) = true
    · have hstep2 : (Except.ok ga : Except PyError Graph) = Except.ok ga' := by
        rw [if_neg (by simp [hocc])] at hstep0
        exact hstep0
      exact Or.inl ((Except.ok.inj hstep2) ▸ hp2)
    · have hocc2 : ga.hasNode (calc_vertex_descriptor ext2 x) = false := by
        simpa using hocc
      have hstep2 : graph_block_add ext2 ga "vbeam1" x (ZRot.rot orientation0) =
          Except.ok ga' := by
        rw [if_pos (by simp [hocc2])] at hstep0
        exact hstep0
      exact shell_step_len1 ext2 ga ga' x hocc2 hstep2 p2 hp2
  · intro ext2 g2 g2' hrun p hp
    have hrun2 : runSteps (fun gcur vd =>
        runSteps (fun g3 n =>
          if !(g3.hasNode (calc_vertex_descriptor ext2
              ((calc_vertex_coord ext2 vd).add n)))
              && coord_within_bb ext2 ((calc_vertex_coord ext2 vd).add n) then
            graph_block_add ext2 g3 "vbeam1" ((calc_vertex_coord ext2 vd).add n)
              (ZRot.rot orientation0)
          else Except.ok g3) gcur sixNeighbors)
        g2 (g2.nodes.map (fun q => q.1)) = Except.ok g2' := hrun
    refine runSteps_node_inv (fun q => q.2.zrot = Orientation.toStr orientation0) _ ?_
      (g2.nodes.map (fun q => q.1)) g2 g2' hrun2 p hp
    intro ga vd ga' hstepEq p2 hp2
    have hstepEq2 : runSteps (fun g3 n =>
        if !(g3.hasNode (calc_vertex_descriptor ext2
            ((calc_vertex_coord ext2 vd).add n)))
            && coord_within_bb ext2 ((calc_vertex_coord ext2 vd).add n) then
          graph_block_add ext2 g3 "vbeam1" ((calc_vertex_coord ext2 vd).add n)
            (ZRot.rot orientation0)
        else Except.ok g3) ga sixNeighbors = Except.ok ga' := hstepEq
    refine runSteps_node_inv (fun q => q.2.zrot = Orientation.toStr orientation0) _ ?_
      sixNeighbors ga ga' hstepEq2 p2 hp2
    intro gb n gb' hstep p3 hp3
    have hstep0 : (if !(gb.hasNode (calc_vertex_descriptor ext2
        ((calc_vertex_coord ext2 vd).add n)))
        && coord_within_bb ext2 ((calc_vertex_coord ext2 vd).add n) then
        graph_block_add ext2 gb "vbeam1" ((calc_vertex_coord ext2 vd).add n)
          (ZRot.rot orientation0)
      else Except.ok gb) = Except.ok gb' := hstep
    by_cases hcond : (!(gb.hasNode (calc_vertex_descriptor ext2
        ((calc_vertex_coord ext2 vd).add n)))
        && coord_within_bb ext2 ((calc_vertex_coord ext2 vd).add n)) = true
    · have hocc2 : gb.hasNode (calc_vertex_descriptor ext2
          ((calc_vertex_coord ext2 vd).add n)) = false := by
        by_cases h4 : gb.hasNode (calc_vertex_descriptor ext2
            ((calc_vertex_coord ext2 vd).add n)) = true
        · rw [h4] at hcond; simp at hcond
        · simpa using h4
      have hstep2 : graph_block_add ext2 gb "vbeam1"
          ((calc_vertex_coord ext2 vd).add n) (ZRot.rot orientation0) =
          Except.ok gb' := by
        rw [if_pos hcond] at hstep0
        exact hstep0
      exact shell_step_len1 ext2 gb gb' ((calc_vertex_coord ext2 vd).add n)
        hocc2 hstep2 p3 hp3
    · have hstep2 : (Except.ok gb : Except PyError Graph) = Except.ok gb' := by
        rw [if_neg (by simpa using hcond)] at hstep0
        exact hstep0
      exact Or.inl ((Except.ok.inj hstep2) ▸ hp3)
  · intro hne2
    cases o with
    | E => exact absurd rfl hne2
    | W => decide
    | N => decide
    | S => decide

def c10Graph : Graph :=
  ⟨[(0, ⟨"beam2", "0,0,0", "PI/2", "beam2"⟩),
    (6, ⟨"vbeam1", "0,2,0", "PI/2", "vbeam1"⟩)],
   [(0, 6, 2)]⟩

/-- Witness for C10_virtual_node_rotation: beam2 at (0,0,0) facing N in
extent (3,3,1) synthesizes its placeholder at (0,2,0) (descriptor 6) with
z-rotation "PI/2", which differs from the shells' default "0". -/
theorem C10_virtual_node_rotation_witness :
    Graph.nodeZrot c10Graph 6 = some (Orientation.toStr Orientation.N) ∧
    (∀ (ext2 : ArenaExtent) (g2 g2' : Graph),
      graph_complement_shell_add ext2 g2 = Except.ok g2' →
      ∀ p, p ∈ g2'.nodes → p ∈ g2.nodes ∨ p.2.zrot = Orientation.toStr orientation0) ∧
    (∀ (ext2 : ArenaExtent) (g2 g2' : Graph),
      graph_virtual_shell_add ext2 g2 = Except.ok g2' →
      ∀ p, p ∈ g2'.nodes → p ∈ g2.nodes ∨ p.2.zrot = Orientation.toStr orientation0) ∧
    (Orientation.N ≠ orientation0 →
      Orientation.toStr Orientation.N ≠ Orientation.toStr orientation0) :=
  C10_virtual_node_rotation ext331 emptyGraph c10Graph "beam2" ⟨0, 0, 0⟩
    Orientation.N 2 rfl (by omega) (by decide) rfl rfl

end Prism
